import Mathlib

/-!
Shallow embedding of the data-access layer of the evals-react-agent
repository: the SQLAlchemy-based `SalesDAO` (src/sqlalchemy_utils/sales_dao.py),
the psql ORM-based `SalesDAO` (src/pgsql_utils/sales_dao.py), and the
`FinalReport` tool artifact (src/models.py, src/inspect_react_agent.py).

Python values flowing through the DAO are modelled by an inductive `Value`;
Python dicts by insertion-ordered association lists with Python's
`dict` update semantics; `Decimal` arithmetic by exact rationals (ℚ);
the database driver by explicit outcome parameters (an `Except`-valued
reply, or a Boolean failure flag for a commit), since the driver itself
is an external library.
-/

namespace ReactAgent

/-- A Python value as it appears in DAO results. -/
inductive Value where
  | vNull : Value
  | vInt : Int → Value
  | vRat : ℚ → Value
  | vStr : String → Value
  | vBool : Bool → Value
  | vList : List Value → Value
  | vDict : List (String × Value) → Value

/-- A Python dict with string keys: insertion-ordered association list. -/
abbrev Dict := List (String × Value)

/-- An error raised by the database driver (an exception object). -/
structure DBError where
  msg : String
deriving Repr, DecidableEq

/-- Python `d[k] = v`: overwrite in place if `k` is present (keeping its
position), otherwise append at the end. -/
def dictInsert (d : Dict) (k : String) (v : Value) : Dict :=
  if k ∈ d.map Prod.fst then d.map (fun p => if p.1 = k then (k, v) else p)
  else d ++ [(k, v)]

/-- Python `dict(pairs)`: build a dict by inserting each pair in order. -/
def dictOfPairs (ps : List (String × Value)) : Dict :=
  ps.foldl (fun d p => dictInsert d p.1 p.2) []

theorem dictInsert_of_not_mem (d : Dict) (k : String) (v : Value)
    (h : k ∉ d.map Prod.fst) : dictInsert d k v = d ++ [(k, v)] := by
  simp [dictInsert, h]

theorem foldl_dictInsert_eq_append (ps : List (String × Value)) :
    ∀ acc : Dict, (acc.map Prod.fst ++ ps.map Prod.fst).Nodup →
      ps.foldl (fun d p => dictInsert d p.1 p.2) acc = acc ++ ps := by
  induction ps with
  | nil => intro acc _; simp
  | cons p ps ih =>
    intro acc h
    have hk : p.1 ∉ acc.map Prod.fst := by
      rcases List.nodup_append.mp (by simpa using h) with ⟨_, _, hdisj⟩
      exact fun hmem => hdisj hmem (by simp)
    rw [List.foldl_cons, dictInsert_of_not_mem acc p.1 p.2 hk]
    have h2 : ((acc ++ [p]).map Prod.fst ++ ps.map Prod.fst).Nodup := by
      simpa [List.append_assoc] using h
    rw [ih (acc ++ [p]) h2]
    simp

/-- When the keys are pairwise distinct, `dict(pairs)` keeps every pair. -/
theorem dictOfPairs_of_nodup (ps : List (String × Value))
    (h : (ps.map Prod.fst).Nodup) : dictOfPairs ps = ps := by
  have := foldl_dictInsert_eq_append ps [] (by simpa using h)
  simpa [dictOfPairs] using this

/-! ## sqlalchemy_utils.sales_dao.SalesDAO -/

/-- The reply of `session.execute` for one statement: the result's column
labels (`result.keys()`), its rows (`result.fetchall()`), and its
`result.rowcount` (a DBAPI value, `-1` when not applicable). -/
structure ExecResult where
  cols : List String
  rows : List (List Value)
  rowcount : Int

/-- `sql_query.strip().upper().startswith('SELECT')` from `run_sql`,
modelled over the string's characters: strip leading and trailing
whitespace, uppercase, and test for the leading `SELECT`. -/
def isSelectQuery (sql_query : String) : Bool :=
  List.isPrefixOf "SELECT".data
    (((sql_query.data.dropWhile Char.isWhitespace).reverse.dropWhile
        Char.isWhitespace).reverse.map Char.toUpper)

/-- Observable state of the SQLAlchemy `SalesDAO`: whether `self.session`
and `self.engine` are set (non-`None`), and how many commits the session
has performed. -/
structure SAState where
  sessionSet : Bool
  engineSet : Bool
  commits : Nat
deriving Repr, DecidableEq

/-- `SalesDAO.run_sql(sql_query, params)`.  The driver is abstracted by
`execute`, the reply of `self.session.execute` for a query and optional
parameters.  Mirrors the source: early `[]` when `self.session` is unset;
`if params:` (an empty dict is falsy) selects the call form; a raised
driver error is re-raised; a SELECT (by `isSelectQuery`) returns
`[dict(zip(columns, row)) for row in result.fetchall()]` without
committing; any other statement commits and returns
`[{'rows_affected': result.rowcount}]`. -/
def run_sql (st : SAState)
    (execute : String → Option Dict → Except DBError ExecResult)
    (sql_query : String) (params : Option Dict) :
    Except DBError (List Dict) × SAState :=
  if st.sessionSet = false then
    (Except.ok [], st)
  else
    let outcome :=
      match params with
      | some p => if p.isEmpty then execute sql_query none else execute sql_query (some p)
      | none => execute sql_query none
    match outcome with
    | Except.error e => (Except.error e, st)
    | Except.ok result =>
      if isSelectQuery sql_query then
        (Except.ok (result.rows.map fun row => dictOfPairs (result.cols.zip row)), st)
      else
        (Except.ok [[("rows_affected", Value.vInt result.rowcount)]],
         { st with commits := st.commits + 1 })

/-- Metadata held by the store for one table, as surfaced by the
SQLAlchemy `inspect(engine)` reflection API. -/
structure TableMeta where
  columns : List Dict
  primary_keys : Dict
  foreign_keys : List Dict
  indexes : List Dict

/-- The store's table metadata: table name to its `TableMeta`. -/
abbrev DBMeta := List (String × TableMeta)

/-- The driver error raised by the reflection API on an unknown table
(SQLAlchemy's `NoSuchTableError`). -/
def noSuchTable (table_name : String) : DBError :=
  ⟨"NoSuchTableError: " ++ table_name⟩

/-- `inspector.get_columns(table_name)`: the table's column dicts, or the
driver error on an unknown table (external-library behavior). -/
def inspector_get_columns (meta : DBMeta) (table_name : String) :
    Except DBError (List Dict) :=
  match meta.lookup table_name with
  | some m => Except.ok m.columns
  | none => Except.error (noSuchTable table_name)

/-- `inspector.get_pk_constraint(table_name)` (external-library behavior). -/
def inspector_get_pk_constraint (meta : DBMeta) (table_name : String) :
    Except DBError Dict :=
  match meta.lookup table_name with
  | some m => Except.ok m.primary_keys
  | none => Except.error (noSuchTable table_name)

/-- `inspector.get_foreign_keys(table_name)` (external-library behavior). -/
def inspector_get_foreign_keys (meta : DBMeta) (table_name : String) :
    Except DBError (List Dict) :=
  match meta.lookup table_name with
  | some m => Except.ok m.foreign_keys
  | none => Except.error (noSuchTable table_name)

/-- `inspector.get_indexes(table_name)` (external-library behavior). -/
def inspector_get_indexes (meta : DBMeta) (table_name : String) :
    Except DBError (List Dict) :=
  match meta.lookup table_name with
  | some m => Except.ok m.indexes
  | none => Except.error (noSuchTable table_name)

/-- `SalesDAO.get_all_tables()`: `[]` when `self.engine` is unset, else the
inspector's table names. -/
def get_all_tables (st : SAState) (meta : DBMeta) :
    Except DBError (List String) :=
  if st.engineSet = false then Except.ok []
  else Except.ok (meta.map Prod.fst)

/-- `SalesDAO.get_schema_for_table(table_name)`: `{}` when `self.engine` is
unset; otherwise queries the inspector for columns, primary keys, foreign
keys and indexes in that order (the first raised driver error is printed
and re-raised) and assembles the `schema_info` dict. -/
def get_schema_for_table (st : SAState) (meta : DBMeta) (table_name : String) :
    Except DBError Dict :=
  if st.engineSet = false then Except.ok []
  else
    match inspector_get_columns meta table_name with
    | Except.error e => Except.error e
    | Except.ok columns =>
      match inspector_get_pk_constraint meta table_name with
      | Except.error e => Except.error e
      | Except.ok primary_keys =>
        match inspector_get_foreign_keys meta table_name with
        | Except.error e => Except.error e
        | Except.ok foreign_keys =>
          match inspector_get_indexes meta table_name with
          | Except.error e => Except.error e
          | Except.ok indexes =>
            Except.ok
              [("table_name", Value.vStr table_name),
               ("columns", Value.vList (columns.map Value.vDict)),
               ("primary_keys", Value.vDict primary_keys),
               ("foreign_keys", Value.vList (foreign_keys.map Value.vDict)),
               ("indexes", Value.vList (indexes.map Value.vDict))]

/-! ### Connection lifecycle (context-manager use) -/

/-- Lifecycle state of the SQLAlchemy `SalesDAO`'s session and engine:
whether each is set, and whether `close()` / `dispose()` has been called
on it. -/
structure ConnState where
  hasSession : Bool
  sessionClosed : Bool
  hasEngine : Bool
  engineDisposed : Bool
deriving Repr, DecidableEq

/-- `SalesDAO.connect` (as called by `__enter__`): a fresh engine and a
fresh open session. -/
def connect : ConnState :=
  ⟨true, false, true, false⟩

/-- `SalesDAO.disconnect`: `if self.session: self.session.close()` then
`if self.engine: self.engine.dispose()`. -/
def disconnect (s : ConnState) : ConnState :=
  let s1 := if s.hasSession = true then { s with sessionClosed := true } else s
  if s1.hasEngine = true then { s1 with engineDisposed := true } else s1

/-- `with SalesDAO(...) as dao: body` — Python's `with` statement over the
DAO: `__enter__` calls `connect`, the body runs (returning a value or
raising), and `__exit__` calls `disconnect` unconditionally; since
`__exit__` returns `None`, a raised exception propagates unchanged. -/
def withSalesDAO {α : Type} (body : ConnState → Except DBError α × ConnState) :
    Except DBError α × ConnState :=
  ((body connect).1, disconnect (body connect).2)

/-! ## pgsql_utils.sales_dao -/

/-- The `Transaction` ORM row.  `Numeric(10, 2)` amounts and Python
`Decimal` arithmetic are modelled exactly by ℚ; the date is kept as its
`'YYYY-MM-DD'` string (the `strptime` conversion only changes its
representation).  Fields other than the primary key are `Option`s because
a Python attribute may hold `None` before the store enforces its
NOT NULL constraints at commit. -/
structure Transaction where
  id : Int
  transaction_date : Option String
  customer_id : Option Int
  product_id : Option Int
  quantity : Option Int
  unit_price : Option ℚ
  total_amount : Option ℚ
deriving Repr, DecidableEq

/-- A `transaction_data` / `update_data` dict: each field is present
(`some`) or absent (`none`), mirroring key presence in the Python dict. -/
structure TxData where
  transaction_date : Option String
  customer_id : Option Int
  product_id : Option Int
  quantity : Option Int
  unit_price : Option ℚ
  total_amount : Option ℚ
deriving Repr, DecidableEq

/-- State of the psql `SalesDAO`: whether `self.session` is set, the rows
the store has committed, the session's pending view of those rows (equal
to `committed` except inside an uncommitted mutation), and the next
autoincrement id the store will assign. -/
structure PgState where
  connected : Bool
  committed : List Transaction
  pending : List Transaction
  nextId : Int
deriving Repr, DecidableEq

/-- `SalesDAO.get_all_transactions()`: `[]` when `self.session` is unset;
otherwise the reply of
`session.query(Transaction).order_by(desc(transaction_date)).all()` — a
raised driver error is caught, printed, and masked as `[]`. -/
def get_all_transactions (st : PgState)
    (reply : Except DBError (List Transaction)) : List Transaction :=
  if st.connected = false then []
  else
    match reply with
    | Except.ok txs => txs
    | Except.error _ => []

/-- `SalesDAO.get_transaction_by_id(transaction_id)`: `None` when
`self.session` is unset; a raised driver error (`queryFails`) is caught,
printed, and masked as `None`; otherwise the first pending row with the
given id. -/
def get_transaction_by_id (st : PgState) (queryFails : Bool)
    (transaction_id : Int) : Option Transaction :=
  if st.connected = false then none
  else if queryFails = true then none
  else st.pending.find? (fun t => t.id == transaction_id)

/-- `SalesDAO.get_transactions_by_date_range(start, end)`: `[]` when not
connected; a driver error is masked as `[]`; otherwise the driver's rows. -/
def get_transactions_by_date_range (st : PgState)
    (reply : Except DBError (List Transaction)) : List Transaction :=
  if st.connected = false then []
  else
    match reply with
    | Except.ok txs => txs
    | Except.error _ => []

/-- `SalesDAO.get_transactions_by_customer(customer_id)`: `[]` when not
connected; a driver error is masked as `[]`; otherwise the driver's rows. -/
def get_transactions_by_customer (st : PgState)
    (reply : Except DBError (List Transaction)) : List Transaction :=
  if st.connected = false then []
  else
    match reply with
    | Except.ok txs => txs
    | Except.error _ => []

/-- `SalesDAO.get_transaction_count()`: `0` when `self.session` is unset; a
driver error is masked as `0`; otherwise the driver's scalar count. -/
def get_transaction_count (st : PgState) (reply : Except DBError Int) : Int :=
  if st.connected = false then 0
  else
    match reply with
    | Except.ok n => n
    | Except.error _ => 0

/-- `SalesDAO.get_total_sales()`: `Decimal('0')` when `self.session` is
unset or the driver raises; otherwise `result if result else Decimal('0')`
for the scalar sum (`None` and `Decimal('0')` are falsy). -/
def get_total_sales (st : PgState) (reply : Except DBError (Option ℚ)) : ℚ :=
  if st.connected = false then 0
  else
    match reply with
    | Except.ok (some x) => if x = 0 then 0 else x
    | Except.ok none => 0
    | Except.error _ => 0

/-- `SalesDAO.insert_transaction(transaction_data)`: `None` when
`self.session` is unset.  When `'total_amount'` is absent, it is set to
`Decimal(str(quantity)) * Decimal(str(unit_price))` with each factor
defaulting to `0` when its key is absent (exact rational product).  The
new row gets the store's next id; `session.add` then `session.commit`
persist it.  A raised error (`commitFails`, covering constraint
violations and driver failures) is printed, the session is rolled back,
and `None` is returned. -/
def insert_transaction (st : PgState) (transaction_data : TxData)
    (commitFails : Bool) : Option Transaction × PgState :=
  if st.connected = false then
    (none, st)
  else
    let total : ℚ :=
      match transaction_data.total_amount with
      | some t => t
      | none =>
        ((transaction_data.quantity.getD 0 : Int) : ℚ) *
          transaction_data.unit_price.getD 0
    let tx : Transaction :=
      { id := st.nextId
        transaction_date := transaction_data.transaction_date
        customer_id := transaction_data.customer_id
        product_id := transaction_data.product_id
        quantity := transaction_data.quantity
        unit_price := transaction_data.unit_price
        total_amount := some total }
    let newPending := st.pending ++ [tx]
    if commitFails = true then
      (none, { st with pending := st.committed })
    else
      (some tx,
       { st with pending := newPending, committed := newPending,
                 nextId := st.nextId + 1 })

/-- The `setattr` loop of `update_transaction`: each key present in
`update_data` overwrites the matching attribute of the row. -/
def applyUpdates (tx : Transaction) (update_data : TxData) : Transaction :=
  { tx with
    transaction_date :=
      match update_data.transaction_date with
      | some d => some d
      | none => tx.transaction_date
    customer_id :=
      match update_data.customer_id with
      | some c => some c
      | none => tx.customer_id
    product_id :=
      match update_data.product_id with
      | some p => some p
      | none => tx.product_id
    quantity :=
      match update_data.quantity with
      | some q => some q
      | none => tx.quantity
    unit_price :=
      match update_data.unit_price with
      | some p => some p
      | none => tx.unit_price
    total_amount :=
      match update_data.total_amount with
      | some t => some t
      | none => tx.total_amount }

/-- `transaction.total_amount = Decimal(str(transaction.quantity)) *
Decimal(str(transaction.unit_price))`: the exact product when both fields
hold values; `none` models the raise when a field is `None` (so
`Decimal('None')` fails), which the caller's `except` handles. -/
def recomputeTotal (tx : Transaction) : Option Transaction :=
  match tx.quantity, tx.unit_price with
  | some q, some p => some { tx with total_amount := some ((q : ℚ) * p) }
  | _, _ => none

/-- `SalesDAO.update_transaction(transaction_id, update_data)`: `False`
when `self.session` is unset; `False` when `get_transaction_by_id` finds
nothing; otherwise the `setattr` loop applies `update_data`, the total is
recomputed when `'quantity'` or `'unit_price'` is in `update_data`, and
the session commits.  A raised error (a failed recomputation or
`commitFails`) is printed, the session is rolled back, and `False` is
returned. -/
def update_transaction (st : PgState) (transaction_id : Int)
    (update_data : TxData) (lookupFails commitFails : Bool) : Bool × PgState :=
  if st.connected = false then
    (false, st)
  else
    match get_transaction_by_id st lookupFails transaction_id with
    | none => (false, st)
    | some tx =>
      let tx1 := applyUpdates tx update_data
      let txNew? : Option Transaction :=
        if update_data.quantity.isSome || update_data.unit_price.isSome then
          recomputeTotal tx1
        else some tx1
      match txNew? with
      | none => (false, { st with pending := st.committed })
      | some txNew =>
        let newPending :=
          st.pending.map fun t => if t.id == transaction_id then txNew else t
        if commitFails = true then
          (false, { st with pending := st.committed })
        else
          (true, { st with pending := newPending, committed := newPending })

/-- `SalesDAO.delete_transaction(transaction_id)`: `False` when
`self.session` is unset; `False` when `get_transaction_by_id` finds
nothing; otherwise `session.delete` removes the row and the session
commits.  A raised error (`commitFails`) is printed, the session is
rolled back, and `False` is returned. -/
def delete_transaction (st : PgState) (transaction_id : Int)
    (lookupFails commitFails : Bool) : Bool × PgState :=
  if st.connected = false then
    (false, st)
  else
    match get_transaction_by_id st lookupFails transaction_id with
    | none => (false, st)
    | some _ =>
      let newPending := st.pending.filter fun t => !(t.id == transaction_id)
      if commitFails = true then
        (false, { st with pending := st.committed })
      else
        (true, { st with pending := newPending, committed := newPending })

/-! ## models.FinalReport and the final_report tool -/

/-- The `FinalReport` pydantic model: fields `summary` and
`task_completed` (default `True`). -/
structure FinalReport where
  summary : String
  task_completed : Bool
deriving Repr, DecidableEq

set_option linter.unusedVariables false in
/-- `FinalReport(summary=summary, recommendations=recommendations)`: the
model has no `recommendations` field, so pydantic's default configuration
silently ignores that keyword; `task_completed` takes its default
`True`. -/
def mkFinalReport (summary : String) (recommendations : String) : FinalReport :=
  { summary := summary, task_completed := true }

/-- `FinalReport.__call__`: the returned report dict is
`{"summary": self.summary}`. -/
def FinalReport_call (r : FinalReport) : Dict :=
  [("summary", Value.vStr r.summary)]

/-- The `final_report` tool of `create_database_tools`: builds the model
from the summary and recommendations and returns `model()`. -/
def final_report (summary : String) (recommendations : String) : Dict :=
  FinalReport_call (mkFinalReport summary recommendations)

/-! ## Claims -/

/-- C1: On a connected SQLAlchemy `SalesDAO`, `run_sql` on a SELECT
statement returns, without error, one mapping per row of the driver's
reply — so the length of the returned sequence equals the number of
matched rows — and, when the selected column labels are pairwise distinct
and each row carries one value per column, each mapping's keys are exactly
the selected column names; the state is returned unchanged, so no commit
is performed on this branch. -/
theorem run_sql_select_rows (st : SAState)
    (execute : String → Option Dict → Except DBError ExecResult)
    (q : String) (params : Option Dict) (res : ExecResult)
    (hconn : st.sessionSet = true)
    (hexec : ∀ pr, execute q pr = Except.ok res)
    (hsel : isSelectQuery q = true)
    (harity : ∀ row ∈ res.rows, res.cols.length ≤ row.length)
    (hnodup : res.cols.Nodup) :
    run_sql st execute q params
      = (Except.ok (res.rows.map fun row => dictOfPairs (res.cols.zip row)), st)
    ∧ (res.rows.map fun row => dictOfPairs (res.cols.zip row)).length
        = res.rows.length
    ∧ ∀ d ∈ res.rows.map fun row => dictOfPairs (res.cols.zip row),
        d.map Prod.fst = res.cols := by
  refine ⟨?_, by simp, ?_⟩
  · unfold run_sql
    rw [hconn]
    cases params with
    | none => simp [hexec, hsel]
    | some p => by_cases hp : p.isEmpty <;> simp [hp, hexec, hsel]
  · intro d hd
    rw [List.mem_map] at hd
    obtain ⟨row, hrow, rfl⟩ := hd
    have hlen := harity row hrow
    have hkeys : (res.cols.zip row).map Prod.fst = res.cols :=
      List.map_fst_zip _ _ hlen
    rw [dictOfPairs_of_nodup _ (by rw [hkeys]; exact hnodup), hkeys]

/-- C1 witness: a concrete connected state and a concrete two-row,
two-column SELECT reply. -/
theorem run_sql_select_rows_witness :
    run_sql ⟨true, true, 0⟩
        (fun _ _ => Except.ok ⟨["id", "name"],
          [[Value.vInt 1, Value.vStr "a"], [Value.vInt 2, Value.vStr "b"]], -1⟩)
        "SELECT id, name FROM transactions" none
      = (Except.ok
          (([[Value.vInt 1, Value.vStr "a"], [Value.vInt 2, Value.vStr "b"]]).map
            fun row => dictOfPairs ((["id", "name"]).zip row)),
         ⟨true, true, 0⟩)
    ∧ (([[Value.vInt 1, Value.vStr "a"], [Value.vInt 2, Value.vStr "b"]]).map
        fun row => dictOfPairs ((["id", "name"]).zip row)).length
        = ([[Value.vInt 1, Value.vStr "a"], [Value.vInt 2, Value.vStr "b"]] :
            List (List Value)).length
    ∧ ∀ d ∈ ([[Value.vInt 1, Value.vStr "a"], [Value.vInt 2, Value.vStr "b"]]).map
        fun row => dictOfPairs ((["id", "name"]).zip row),
        d.map Prod.fst = ["id", "name"] :=
  run_sql_select_rows ⟨true, true, 0⟩ _ _ none
    ⟨["id", "name"],
      [[Value.vInt 1, Value.vStr "a"], [Value.vInt 2, Value.vStr "b"]], -1⟩
    rfl (fun _ => rfl) (by decide) (by decide) (by decide)

/-- C2: On a connected SQLAlchemy `SalesDAO`, `run_sql` on a statement
that is not a SELECT commits the session (the commit counter increases)
and returns a sequence containing exactly one mapping whose single key is
`'rows_affected'`, holding the driver's row count, which is ≥ 0 for a
DML statement. -/
theorem run_sql_non_select_commits (st : SAState)
    (execute : String → Option Dict → Except DBError ExecResult)
    (q : String) (params : Option Dict) (res : ExecResult)
    (hconn : st.sessionSet = true)
    (hexec : ∀ pr, execute q pr = Except.ok res)
    (hsel : isSelectQuery q = false)
    (hrc : 0 ≤ res.rowcount) :
    run_sql st execute q params
      = (Except.ok [[("rows_affected", Value.vInt res.rowcount)]],
         { st with commits := st.commits + 1 })
    ∧ ([[("rows_affected", Value.vInt res.rowcount)]] : List Dict).length = 1
    ∧ ([("rows_affected", Value.vInt res.rowcount)] : Dict).map Prod.fst
        = ["rows_affected"]
    ∧ 0 ≤ res.rowcount := by
  refine ⟨?_, rfl, rfl, hrc⟩
  unfold run_sql
  rw [hconn]
  cases params with
  | none => simp [hexec, hsel]
  | some p => by_cases hp : p.isEmpty <;> simp [hp, hexec, hsel]

/-- C2 witness: a concrete INSERT whose reply reports one row affected. -/
theorem run_sql_non_select_commits_witness :
    run_sql ⟨true, true, 0⟩ (fun _ _ => Except.ok ⟨[], [], 1⟩)
        "INSERT INTO transactions (quantity) VALUES (5)" none
      = (Except.ok [[("rows_affected", Value.vInt 1)]], ⟨true, true, 1⟩)
    ∧ ([[("rows_affected", Value.vInt 1)]] : List Dict).length = 1
    ∧ ([("rows_affected", Value.vInt 1)] : Dict).map Prod.fst
        = ["rows_affected"]
    ∧ (0 : Int) ≤ 1 :=
  run_sql_non_select_commits ⟨true, true, 0⟩ _ _ none ⟨[], [], 1⟩
    rfl (fun _ => rfl) (by decide) (by decide)

/-- C3: On a connected SQLAlchemy `SalesDAO`, `get_schema_for_table` on a
table name absent from the store's metadata propagates the driver's
no-such-table error and never returns a schema descriptor. -/
theorem get_schema_unknown_table_raises (st : SAState) (meta : DBMeta)
    (table_name : String)
    (heng : st.engineSet = true)
    (hmiss : meta.lookup table_name = none) :
    get_schema_for_table st meta table_name
      = Except.error (noSuchTable table_name)
    ∧ ∀ d, get_schema_for_table st meta table_name ≠ Except.ok d := by
  have h1 : get_schema_for_table st meta table_name
      = Except.error (noSuchTable table_name) := by
    unfold get_schema_for_table inspector_get_columns
    rw [heng, hmiss]
    simp
  exact ⟨h1, fun d hd => by rw [h1] at hd; cases hd⟩

/-- C3 witness: an engine over a store that has only a `transactions`
table, queried for a missing table. -/
theorem get_schema_unknown_table_raises_witness :
    get_schema_for_table ⟨true, true, 0⟩ [("transactions", ⟨[], [], [], []⟩)]
        "no_such_table"
      = Except.error (noSuchTable "no_such_table")
    ∧ ∀ d, get_schema_for_table ⟨true, true, 0⟩
        [("transactions", ⟨[], [], [], []⟩)] "no_such_table" ≠ Except.ok d :=
  get_schema_unknown_table_raises ⟨true, true, 0⟩
    [("transactions", ⟨[], [], [], []⟩)] "no_such_table" rfl rfl

/-- C4: Whatever the body of a `with SalesDAO(...)` block does — return a
value or raise — `__exit__` runs `disconnect`, so afterwards the session
is closed and the engine is disposed (the body is assumed not to drop the
session or engine attributes, which no DAO method does). -/
theorem with_dao_always_disconnects {α : Type}
    (body : ConnState → Except DBError α × ConnState)
    (hs : (body connect).2.hasSession = true)
    (he : (body connect).2.hasEngine = true) :
    (withSalesDAO body).2.sessionClosed = true
    ∧ (withSalesDAO body).2.engineDisposed = true := by
  constructor <;> simp [withSalesDAO, disconnect, hs, he]

/-- C4 witness: a body that raises immediately; the session is still
closed and the engine still disposed on exit. -/
theorem with_dao_always_disconnects_witness :
    (withSalesDAO fun s =>
        ((Except.error ⟨"boom"⟩ : Except DBError Unit), s)).2.sessionClosed = true
    ∧ (withSalesDAO fun s =>
        ((Except.error ⟨"boom"⟩ : Except DBError Unit), s)).2.engineDisposed = true :=
  with_dao_always_disconnects _ rfl rfl

/-- C5: On a connected psql `SalesDAO`, inserting a `transaction_data`
that omits `'total_amount'` stores (and returns) a transaction whose
`total_amount` is the exact decimal product of the supplied quantity and
unit price, each defaulting to 0 when absent. -/
theorem insert_transaction_computes_total (st : PgState)
    (transaction_data : TxData)
    (hconn : st.connected = true)
    (hta : transaction_data.total_amount = none) :
    ∃ tx, (insert_transaction st transaction_data false).1 = some tx
      ∧ tx.total_amount
          = some (((transaction_data.quantity.getD 0 : Int) : ℚ)
              * transaction_data.unit_price.getD 0)
      ∧ tx ∈ (insert_transaction st transaction_data false).2.committed := by
  refine ⟨{ id := st.nextId
            transaction_date := transaction_data.transaction_date
            customer_id := transaction_data.customer_id
            product_id := transaction_data.product_id
            quantity := transaction_data.quantity
            unit_price := transaction_data.unit_price
            total_amount := some (((transaction_data.quantity.getD 0 : Int) : ℚ)
              * transaction_data.unit_price.getD 0) }, ?_, rfl, ?_⟩ <;>
    simp [insert_transaction, hconn, hta]

/-- C5 witness: insert of quantity 5 at unit price 29.99 with no
`total_amount` key; the stored total is exactly 149.95. -/
theorem insert_transaction_computes_total_witness :
    ∃ tx, (insert_transaction ⟨true, [], [], 1⟩
        ⟨some "2024-01-15", some 1, some 1, some 5, some (2999 / 100), none⟩
        false).1 = some tx
      ∧ tx.total_amount
          = some ((((⟨some "2024-01-15", some 1, some 1, some 5,
              some (2999 / 100), none⟩ : TxData).quantity.getD 0 : Int) : ℚ)
            * (⟨some "2024-01-15", some 1, some 1, some 5,
              some (2999 / 100), none⟩ : TxData).unit_price.getD 0)
      ∧ tx ∈ (insert_transaction ⟨true, [], [], 1⟩
          ⟨some "2024-01-15", some 1, some 1, some 5, some (2999 / 100), none⟩
          false).2.committed :=
  insert_transaction_computes_total ⟨true, [], [], 1⟩
    ⟨some "2024-01-15", some 1, some 1, some 5, some (2999 / 100), none⟩
    rfl rfl

/-- A successful recomputation sets `total_amount` to exactly
`quantity × unit_price`. -/
theorem recomputeTotal_invariant (tx tx2 : Transaction)
    (h : recomputeTotal tx = some tx2) :
    ∃ q p, tx2.quantity = some q ∧ tx2.unit_price = some p
      ∧ tx2.total_amount = some ((q : ℚ) * p) := by
  unfold recomputeTotal at h
  cases hq : tx.quantity with
  | none => rw [hq] at h; cases h
  | some q =>
    cases hp : tx.unit_price with
    | none => rw [hq, hp] at h; cases h
    | some p =>
      rw [hq, hp] at h
      injection h with h'
      subst h'
      exact ⟨q, p, by simp [hq], by simp [hp], by simp⟩

/-- C6: On a connected psql `SalesDAO`, a successful `update_transaction`
whose `update_data` contains `'quantity'` or `'unit_price'` leaves every
stored row with the updated id satisfying
`total_amount = quantity × unit_price`. -/
theorem update_transaction_preserves_total (st : PgState)
    (transaction_id : Int) (update_data : TxData)
    (hconn : st.connected = true)
    (hqp : update_data.quantity.isSome ∨ update_data.unit_price.isSome)
    (hres : (update_transaction st transaction_id update_data false false).1
      = true) :
    ∀ t ∈ (update_transaction st transaction_id update_data
        false false).2.committed,
      t.id = transaction_id →
        ∃ q p, t.quantity = some q ∧ t.unit_price = some p
          ∧ t.total_amount = some ((q : ℚ) * p) := by
  have hqp' : (update_data.quantity.isSome || update_data.unit_price.isSome)
      = true := by
    rcases hqp with h | h <;> simp [h]
  cases hfind : st.pending.find? (fun t => t.id == transaction_id) with
  | none =>
    rw [update_transaction, get_transaction_by_id] at hres
    simp [hconn, hfind] at hres
  | some tx =>
    cases hrc : recomputeTotal (applyUpdates tx update_data) with
    | none =>
      rw [update_transaction, get_transaction_by_id] at hres
      simp [hconn, hfind, hqp', hrc] at hres
    | some tx2 =>
      have hupd : update_transaction st transaction_id update_data false false
          = (true,
             { st with
               pending := st.pending.map
                 fun t0 => if t0.id == transaction_id then tx2 else t0
               committed := st.pending.map
                 fun t0 => if t0.id == transaction_id then tx2 else t0 }) := by
        rw [update_transaction, get_transaction_by_id]
        simp [hconn, hfind, hqp', hrc]
      intro t ht htid
      rw [hupd] at ht
      rw [List.mem_map] at ht
      obtain ⟨t0, ht0, hteq⟩ := ht
      cases h0 : (t0.id == transaction_id) with
      | true =>
        rw [h0, if_pos rfl] at hteq
        rw [← hteq]
        exact recomputeTotal_invariant _ _ hrc
      | false =>
        rw [h0] at hteq
        simp only [Bool.false_eq_true, if_false] at hteq
        rw [← hteq] at htid
        rw [htid] at h0
        simp at h0

/-- C6 witness: updating the quantity of a stored transaction from 5 to 3
leaves the committed row (found in the updated store) with its total equal
to 3 × 29.99. -/
theorem update_transaction_preserves_total_witness :
    ∃ q p,
      (⟨1, some "2024-01-15", some 1, some 1, some 3, some (2999 / 100),
        some (((3 : Int) : ℚ) * (2999 / 100))⟩ : Transaction).quantity
        = some q
      ∧ (⟨1, some "2024-01-15", some 1, some 1, some 3, some (2999 / 100),
          some (((3 : Int) : ℚ) * (2999 / 100))⟩ : Transaction).unit_price
        = some p
      ∧ (⟨1, some "2024-01-15", some 1, some 1, some 3, some (2999 / 100),
          some (((3 : Int) : ℚ) * (2999 / 100))⟩ : Transaction).total_amount
        = some ((q : ℚ) * p) :=
  update_transaction_preserves_total
    ⟨true,
      [⟨1, some "2024-01-15", some 1, some 1, some 5, some (2999 / 100),
        some (14995 / 100)⟩],
      [⟨1, some "2024-01-15", some 1, some 1, some 5, some (2999 / 100),
        some (14995 / 100)⟩], 2⟩
    1 ⟨none, none, none, some 3, none, none⟩ rfl (Or.inl rfl) (by decide)
    ⟨1, some "2024-01-15", some 1, some 1, some 3, some (2999 / 100),
      some (((3 : Int) : ℚ) * (2999 / 100))⟩
    (List.mem_singleton.mpr rfl) rfl

/-- C7: The DAO layers handle driver errors inconsistently: on a connected
psql `SalesDAO`, `get_all_transactions` masks a raised driver error as the
empty list, while on a connected SQLAlchemy `SalesDAO`, `run_sql`
re-raises the driver error to the caller. -/
theorem error_masking_divergence (stp : PgState) (e : DBError)
    (sts : SAState)
    (execute : String → Option Dict → Except DBError ExecResult)
    (q : String) (params : Option Dict)
    (hp : stp.connected = true)
    (hs : sts.sessionSet = true)
    (hexec : ∀ pr, execute q pr = Except.error e) :
    get_all_transactions stp (Except.error e) = []
    ∧ (run_sql sts execute q params).1 = Except.error e := by
  constructor
  · simp [get_all_transactions, hp]
  · unfold run_sql
    rw [hs]
    cases params with
    | none => simp [hexec]
    | some p => by_cases hpe : p.isEmpty <;> simp [hpe, hexec]

/-- C7 witness: a concrete driver error against concrete connected
states. -/
theorem error_masking_divergence_witness :
    get_all_transactions ⟨true, [], [], 1⟩
        (Except.error ⟨"connection reset"⟩) = []
    ∧ (run_sql ⟨true, true, 0⟩
        (fun _ _ => Except.error ⟨"connection reset"⟩)
        "SELECT * FROM transactions" none).1
      = Except.error ⟨"connection reset"⟩ :=
  error_masking_divergence ⟨true, [], [], 1⟩ ⟨"connection reset"⟩
    ⟨true, true, 0⟩ _ _ none rfl rfl (fun _ => rfl)

/-- C8 counterexample: at summary `"done"` and recommendations
`"add an index"`, the artifact returned by the `final_report` tool is the
single-entry dict `{"summary": "done"}`: no entry has the key
`task_completed` and no entry holds the recommendations string, so the
artifact does not contain the recommendations or `task_completed`. -/
theorem final_report_drops_fields :
    final_report "done" "add an index" = [("summary", Value.vStr "done")]
    ∧ (∀ p ∈ final_report "done" "add an index", p.1 ≠ "task_completed")
    ∧ (∀ p ∈ final_report "done" "add an index",
        p.2 ≠ Value.vStr "add an index") := by
  refine ⟨rfl, ?_, ?_⟩
  · intro p hp
    simp only [final_report, FinalReport_call, mkFinalReport,
      List.mem_singleton] at hp
    subst hp
    simp
  · intro p hp
    simp only [final_report, FinalReport_call, mkFinalReport,
      List.mem_singleton] at hp
    subst hp
    intro h
    injection h with h'
    exact absurd h' (by decide)

/-- C8 (amended): for every summary and optional recommendations string,
the `final_report` tool returns the artifact `{"summary": summary}` —
the summary is included, the unknown `recommendations` keyword is
silently dropped by the pydantic model, and `task_completed`, although
`True` on the model, is not part of the returned artifact. -/
theorem final_report_artifact (summary recommendations : String) :
    final_report summary recommendations
      = [("summary", Value.vStr summary)]
    ∧ (mkFinalReport summary recommendations).task_completed = true :=
  ⟨rfl, rfl⟩

/-- C9: With the session and engine unset (not connected), every read or
query operation returns its empty default, independent of whatever the
driver would reply: the SQLAlchemy DAO's `get_all_tables` returns `[]`,
`get_schema_for_table` returns `{}` and `run_sql` returns `[]` (with the
state untouched), and the psql DAO's reads return `[]`, `None`, `0` and
`Decimal('0')`. -/
theorem not_connected_empty_defaults
    (sts : SAState) (meta : DBMeta) (table_name : String)
    (execute : String → Option Dict → Except DBError ExecResult)
    (q : String) (params : Option Dict)
    (stp : PgState) (replyAll replyRange replyCust :
      Except DBError (List Transaction))
    (queryFails : Bool) (transaction_id : Int)
    (replyCount : Except DBError Int) (replySum : Except DBError (Option ℚ))
    (hses : sts.sessionSet = false) (heng : sts.engineSet = false)
    (hpc : stp.connected = false) :
    get_all_tables sts meta = Except.ok []
    ∧ get_schema_for_table sts meta table_name = Except.ok []
    ∧ run_sql sts execute q params = (Except.ok [], sts)
    ∧ get_all_transactions stp replyAll = []
    ∧ get_transaction_by_id stp queryFails transaction_id = none
    ∧ get_transactions_by_date_range stp replyRange = []
    ∧ get_transactions_by_customer stp replyCust = []
    ∧ get_transaction_count stp replyCount = 0
    ∧ get_total_sales stp replySum = 0 := by
  refine ⟨?_, ?_, ?_, ?_, ?_, ?_, ?_, ?_, ?_⟩ <;>
    simp [get_all_tables, get_schema_for_table, run_sql, get_all_transactions,
      get_transaction_by_id, get_transactions_by_date_range,
      get_transactions_by_customer, get_transaction_count, get_total_sales,
      hses, heng, hpc]

/-- C9 witness: a disconnected pair of states, with a driver that would
reply (or raise) if it were ever consulted. -/
theorem not_connected_empty_defaults_witness :
    get_all_tables ⟨false, false, 0⟩ [("transactions", ⟨[], [], [], []⟩)]
      = Except.ok []
    ∧ get_schema_for_table ⟨false, false, 0⟩
        [("transactions", ⟨[], [], [], []⟩)] "transactions" = Except.ok []
    ∧ run_sql ⟨false, false, 0⟩ (fun _ _ => Except.error ⟨"unreachable"⟩)
        "SELECT 1" none = (Except.ok [], ⟨false, false, 0⟩)
    ∧ get_all_transactions ⟨false, [], [], 1⟩ (Except.error ⟨"unreachable"⟩)
      = []
    ∧ get_transaction_by_id ⟨false, [], [], 1⟩ false 1 = none
    ∧ get_transactions_by_date_range ⟨false, [], [], 1⟩
        (Except.error ⟨"unreachable"⟩) = []
    ∧ get_transactions_by_customer ⟨false, [], [], 1⟩
        (Except.error ⟨"unreachable"⟩) = []
    ∧ get_transaction_count ⟨false, [], [], 1⟩
        (Except.error ⟨"unreachable"⟩) = 0
    ∧ get_total_sales ⟨false, [], [], 1⟩ (Except.error ⟨"unreachable"⟩) = 0 :=
  not_connected_empty_defaults ⟨false, false, 0⟩
    [("transactions", ⟨[], [], [], []⟩)] "transactions" _ "SELECT 1" none
    ⟨false, [], [], 1⟩ _ _ _ false 1 _ _ rfl rfl rfl

/-- C10: On a connected psql `SalesDAO`, when the driver raises during the
mutation (`commitFails`), `insert_transaction`, `update_transaction` and
`delete_transaction` roll the session back (its pending view is reset to
the committed rows) and return their failure value (`None` or `False`),
so the committed database state is exactly what it was before the call. -/
theorem mutations_rollback_on_error (st : PgState)
    (transaction_data : TxData) (transaction_id : Int) (update_data : TxData)
    (tx : Transaction)
    (hconn : st.connected = true)
    (hfound : st.pending.find? (fun t => t.id == transaction_id) = some tx) :
    insert_transaction st transaction_data true
      = (none, { st with pending := st.committed })
    ∧ update_transaction st transaction_id update_data false true
      = (false, { st with pending := st.committed })
    ∧ delete_transaction st transaction_id false true
      = (false, { st with pending := st.committed }) := by
  refine ⟨?_, ?_, ?_⟩
  · simp [insert_transaction, hconn]
  · rw [update_transaction, get_transaction_by_id]
    simp only [hconn, hfound]
    simp
    split <;> rfl
  · rw [delete_transaction, get_transaction_by_id]
    simp [hconn, hfound]

/-- C10 witness: a store holding one committed transaction; each failing
mutation leaves it untouched and reports failure. -/
theorem mutations_rollback_on_error_witness :
    insert_transaction
        ⟨true, [⟨1, some "2024-01-15", some 1, some 1, some 5,
          some (2999 / 100), some (14995 / 100)⟩],
         [⟨1, some "2024-01-15", some 1, some 1, some 5,
          some (2999 / 100), some (14995 / 100)⟩], 2⟩
        ⟨some "2024-02-01", some 2, some 2, some 1, some 10, none⟩ true
      = (none,
         { (⟨true, [⟨1, some "2024-01-15", some 1, some 1, some 5,
             some (2999 / 100), some (14995 / 100)⟩],
            [⟨1, some "2024-01-15", some 1, some 1, some 5,
             some (2999 / 100), some (14995 / 100)⟩], 2⟩ : PgState) with
           pending := [⟨1, some "2024-01-15", some 1, some 1, some 5,
             some (2999 / 100), some (14995 / 100)⟩] })
    ∧ update_transaction
        ⟨true, [⟨1, some "2024-01-15", some 1, some 1, some 5,
          some (2999 / 100), some (14995 / 100)⟩],
         [⟨1, some "2024-01-15", some 1, some 1, some 5,
          some (2999 / 100), some (14995 / 100)⟩], 2⟩
        1 ⟨none, none, none, some 3, none, none⟩ false true
      = (false,
         { (⟨true, [⟨1, some "2024-01-15", some 1, some 1, some 5,
             some (2999 / 100), some (14995 / 100)⟩],
            [⟨1, some "2024-01-15", some 1, some 1, some 5,
             some (2999 / 100), some (14995 / 100)⟩], 2⟩ : PgState) with
           pending := [⟨1, some "2024-01-15", some 1, some 1, some 5,
             some (2999 / 100), some (14995 / 100)⟩] })
    ∧ delete_transaction
        ⟨true, [⟨1, some "2024-01-15", some 1, some 1, some 5,
          some (2999 / 100), some (14995 / 100)⟩],
         [⟨1, some "2024-01-15", some 1, some 1, some 5,
          some (2999 / 100), some (14995 / 100)⟩], 2⟩
        1 false true
      = (false,
         { (⟨true, [⟨1, some "2024-01-15", some 1, some 1, some 5,
             some (2999 / 100), some (14995 / 100)⟩],
            [⟨1, some "2024-01-15", some 1, some 1, some 5,
             some (2999 / 100), some (14995 / 100)⟩], 2⟩ : PgState) with
           pending := [⟨1, some "2024-01-15", some 1, some 1, some 5,
             some (2999 / 100), some (14995 / 100)⟩] }) :=
  mutations_rollback_on_error
    ⟨true, [⟨1, some "2024-01-15", some 1, some 1, some 5,
      some (2999 / 100), some (14995 / 100)⟩],
     [⟨1, some "2024-01-15", some 1, some 1, some 5,
      some (2999 / 100), some (14995 / 100)⟩], 2⟩
    ⟨some "2024-02-01", some 2, some 2, some 1, some 10, none⟩ 1
    ⟨none, none, none, some 3, none, none⟩
    ⟨1, some "2024-01-15", some 1, some 1, some 5,
      some (2999 / 100), some (14995 / 100)⟩
    rfl rfl

end ReactAgent
